/-
Verification of the tactic orchestration and state-diff/impact-assessment
engine of `src/selenium/recon_engine.py` (class `ReconEngine`).

The Python code is shallowly embedded: each dict-shaped value becomes a
structure whose optional keys are `Option` fields, Python ints become `Nat`
(all observed metrics are counts/lengths) or `Int` (differences), Python
floats arising from division become `ℚ`, and every fallible read becomes an
`Except String` value.  Stateful comparisons against hidden instance state
(`self._last_dom_stats`) are modelled by passing the remembered value
explicitly.  Wall-clock reads (`time.time()`, `performance.now()`) and the
live-session DOM reads are parameters of the embedded functions.
-/
import Mathlib

namespace ReconEngine

/-- A Python value stored under a `timestamp` key: `time.time()` stores a
float, while `_run_safe_tactics` stores `datetime.now().isoformat()`, a
string.  The distinction matters because `_measure_tactic_impact`
subtracts the timestamp from a float. -/
inductive TimeVal where
  | num (q : ℚ)
  | str (s : String)
deriving DecidableEq, Repr

/-- A DOM-statistics value: every metric produced by the JavaScript in
`_detect_dom_changes` is a non-negative count or length, except
`body_hash`, a hex string. -/
inductive StatVal where
  | num (n : Nat)
  | str (s : String)
deriving DecidableEq, Repr

/-- A state snapshot dict.  `_capture_state_snapshot` produces the keys
`url`, `title`, `element_count`, `body_length`, `cookies`,
`local_storage_items`, `timestamp` on success and only `timestamp`,
`error` on failure; other code paths build snapshot-shaped dicts with
fewer keys, and `_calculate_impact` / `_measure_tactic_impact` consult
further keys (`downloadable_content`, `interactive_elements`,
`has_overlays`, `visible_elements`, `document_height`, `scrollable`,
`no_fixed_overlays`, `no_blur`, `resources_loaded`) that no capture ever
writes.  Absent keys are `none`. -/
structure Snapshot where
  url : Option String := none
  title : Option String := none
  element_count : Option Nat := none
  body_length : Option Nat := none
  cookies : Option Nat := none
  local_storage_items : Option Nat := none
  timestamp : Option TimeVal := none
  error : Option String := none
  downloadable_content : Option Nat := none
  interactive_elements : Option Nat := none
  has_overlays : Option Bool := none
  visible_elements : Option Nat := none
  document_height : Option Int := none
  scrollable : Option Bool := none
  no_fixed_overlays : Option Bool := none
  no_blur : Option Bool := none
  resources_loaded : Option Nat := none
deriving DecidableEq, Repr

/-- The six session reads performed by `_capture_state_snapshot`, each of
which may raise (session error, detached element). -/
structure SessionReads where
  current_url : Except String String
  title : Except String String
  element_count : Except String Nat
  body_length : Except String Nat
  cookie_count : Except String Nat
  local_storage_items : Except String Nat
deriving Repr

/-- `_capture_state_snapshot` (recon_engine.py:793-810).  The whole dict
construction sits in one `try`: Python evaluates the six reads in source
order and the first exception abandons the entire dict, so the `except`
branch returns only `timestamp` and `error`. -/
def capture_state_snapshot (s : SessionReads) (now : ℚ) : Snapshot :=
  match (do
    let u ← s.current_url
    let t ← s.title
    let ec ← s.element_count
    let bl ← s.body_length
    let ck ← s.cookie_count
    let ls ← s.local_storage_items
    Except.ok { url := some u, title := some t, element_count := some ec,
                body_length := some bl, cookies := some ck,
                local_storage_items := some ls,
                timestamp := some (TimeVal.num now) } : Except String Snapshot) with
  | Except.ok snap => snap
  | Except.error e => { timestamp := some (TimeVal.num now), error := some e }

/-- Render an optional string the way a Python f-string renders a
possibly-`None` value (message text only; no claim depends on it). -/
def show_opt (o : Option String) : String :=
  o.getD "None"

/-- `_detect_state_changes(before, after)` (recon_engine.py:1981-2022):
the list of human-readable change lines. -/
def detect_state_changes (before after : Snapshot) : List String :=
  let url_msgs : List String :=
    if before.url ≠ after.url then
      let b := show_opt before.url
      let a := show_opt after.url
      [s!"URL changed from {b} to {a}"] else []
  let elem_diff : Int := (after.element_count.getD 0 : Int) - (before.element_count.getD 0 : Int)
  let elem_msgs : List String :=
    if 5 < |elem_diff| then
      if 0 < elem_diff then [s!"Added {elem_diff} elements"]
      else
        let d := |elem_diff|
        [s!"Removed {d} elements"]
    else []
  let text_diff : Int := (after.body_length.getD 0 : Int) - (before.body_length.getD 0 : Int)
  let text_msgs : List String :=
    if 100 < |text_diff| then
      if 0 < text_diff then [s!"Added ~{text_diff} characters of text"]
      else
        let d := |text_diff|
        [s!"Removed ~{d} characters of text"]
    else []
  let cookie_diff : Int := (after.cookies.getD 0 : Int) - (before.cookies.getD 0 : Int)
  let cookie_msgs : List String :=
    if 0 < cookie_diff then [s!"{cookie_diff} new cookies set"]
    else if cookie_diff < 0 then
      let d := |cookie_diff|
      [s!"{d} cookies removed"]
    else []
  let storage_before := before.local_storage_items.getD 0
  let storage_after := after.local_storage_items.getD 0
  let storage_msgs : List String :=
    if storage_before ≠ storage_after then
      [s!"LocalStorage changed from {storage_before} to {storage_after} items"] else []
  let title_msgs : List String :=
    if before.title ≠ after.title then
      let t := show_opt after.title
      [s!"Page title changed to: {t}"] else []
  url_msgs ++ elem_msgs ++ text_msgs ++ cookie_msgs ++ storage_msgs ++ title_msgs

/-- Round-half-to-even on `ℚ`, the rounding rule of Python `round`.
(Python rounds the binary float; on the decimal-exact inputs used below
the two agree.) -/
def round_half_even (q : ℚ) : Int :=
  let f := ⌊q⌋
  let r := q - f
  if r < 1/2 then f
  else if 1/2 < r then f + 1
  else if f % 2 = 0 then f else f + 1

/-- Python `round(q, ndigits)` for a non-negative digit count. -/
def py_round (q : ℚ) (ndigits : Nat) : ℚ :=
  let m : ℚ := (10 : ℚ) ^ ndigits
  (round_half_even (q * m) : ℚ) / m

/-- The DOM-statistics dict assembled by the JavaScript literal in
`_detect_dom_changes` (recon_engine.py:2206-2245): a fixed set of keys,
all numeric counts except `body_hash`.  `timestamp` is `Date.now()`. -/
structure DomStats where
  total_elements : Nat
  images : Nat
  links : Nat
  forms : Nat
  scripts : Nat
  iframes : Nat
  body_length : Nat
  body_hash : String
  buttons : Nat
  inputs : Nat
  ajax_elements : Nat
  lazy_images : Nat
  dom_depth : Nat
  hidden_elements : Nat
  timestamp : ℚ
deriving DecidableEq, Repr

/-- The `change_info` dict built for a differing numeric metric
(recon_engine.py:2268-2284). -/
structure NumericChange where
  previous : Nat
  current : Nat
  change : Int
  change_percent : ℚ
  rate_per_second : ℚ
  significance : String
deriving DecidableEq, Repr

/-- One entry of `changes['details']`: numeric metrics get a full
`change_info`; non-numeric metrics (the hash) get a bare changed-marker
with the two values. -/
inductive ChangeDetail where
  | numeric (info : NumericChange)
  | nonNumeric (previous current : StatVal)
deriving DecidableEq, Repr

/-- The `changes` dict returned by `_detect_dom_changes`
(recon_engine.py:2180-2185 and onward). -/
structure DomChanges where
  summary : List String
  details : List (String × ChangeDetail)
  performance_impact : List (String × String)
  significant_changes : Bool
deriving DecidableEq, Repr

/-- The key/value pairs iterated by
`for key, current_value in current_stats.items()` against
`last_stats`, in dict insertion order, with `timestamp` excluded (the
loop body does `continue` on it).  Both dicts always carry the same
fixed key set, so `key in last_stats` always holds. -/
def stat_pairs (last cur : DomStats) : List (String × StatVal × StatVal) :=
  [("total_elements", StatVal.num last.total_elements, StatVal.num cur.total_elements),
   ("images", StatVal.num last.images, StatVal.num cur.images),
   ("links", StatVal.num last.links, StatVal.num cur.links),
   ("forms", StatVal.num last.forms, StatVal.num cur.forms),
   ("scripts", StatVal.num last.scripts, StatVal.num cur.scripts),
   ("iframes", StatVal.num last.iframes, StatVal.num cur.iframes),
   ("body_length", StatVal.num last.body_length, StatVal.num cur.body_length),
   ("body_hash", StatVal.str last.body_hash, StatVal.str cur.body_hash),
   ("buttons", StatVal.num last.buttons, StatVal.num cur.buttons),
   ("inputs", StatVal.num last.inputs, StatVal.num cur.inputs),
   ("ajax_elements", StatVal.num last.ajax_elements, StatVal.num cur.ajax_elements),
   ("lazy_images", StatVal.num last.lazy_images, StatVal.num cur.lazy_images),
   ("dom_depth", StatVal.num last.dom_depth, StatVal.num cur.dom_depth),
   ("hidden_elements", StatVal.num last.hidden_elements, StatVal.num cur.hidden_elements)]

/-- The unrounded `change_pct` of the metric loop
(recon_engine.py:2266): 0 unless the previous value is positive. -/
def raw_change_percent (lv cv : Nat) : ℚ :=
  if 0 < lv then (((cv : Int) - (lv : Int) : Int) : ℚ) / (lv : ℚ) * 100 else 0

/-- The `change_info` dict built for one changed numeric metric
(recon_engine.py:2268-2284): the recorded `change_percent` is the
percent rounded to one decimal, while the significance tier is decided
on the unrounded percent. -/
def numeric_change_info (time_diff : ℚ) (lv cv : Nat) : NumericChange :=
  let change : Int := (cv : Int) - (lv : Int)
  let change_pct : ℚ := raw_change_percent lv cv
  { previous := lv, current := cv, change := change,
    change_percent := py_round change_pct 1,
    rate_per_second := if 0 < time_diff then py_round ((change : ℚ) / time_diff) 2 else 0,
    significance :=
      if 50 < |change_pct| then "major"
      else if 20 < |change_pct| then "moderate"
      else "minor" }

/-- One iteration of the metric loop (recon_engine.py:2256-2301):
skip unchanged values; for a changed numeric value append the
`change_info` record and its summary line and accumulate the
significance flag; for a changed non-numeric value append a bare
modification entry. -/
def dom_change_step (time_diff : ℚ) (acc : DomChanges)
    (e : String × StatVal × StatVal) : DomChanges :=
  let key := e.1
  let last_value := e.2.1
  let current_value := e.2.2
  if current_value ≠ last_value then
    match last_value, current_value with
    | StatVal.num lv, StatVal.num cv =>
      let change : Int := (cv : Int) - (lv : Int)
      let change_pct : ℚ := raw_change_percent lv cv
      let metric := key.replace "_" " "
      let lines : List String :=
        if 0 < change then [s!"Added {change} {metric}"]
        else if change < 0 then
          let d := |change|
          [s!"Removed {d} {metric}"]
        else []
      { acc with
        significant_changes := acc.significant_changes || decide (50 < |change_pct|),
        details := acc.details ++ [(key, ChangeDetail.numeric (numeric_change_info time_diff lv cv))],
        summary := acc.summary ++ lines }
    | lv, cv =>
      let metric := key.replace "_" " "
      { acc with
        details := acc.details ++ [(key, ChangeDetail.nonNumeric lv cv)],
        summary := acc.summary ++ [s!"{metric} modified"] }
  else acc

/-- The performance-impact notes appended after the metric loop
(recon_engine.py:2303-2313). -/
def dom_performance_impact (last cur : DomStats) : List (String × String) :=
  let growth : List (String × String) :=
    if (last.total_elements : ℚ) * (3 / 2) < (cur.total_elements : ℚ) then
      [("dom_growth", "High - DOM size increased significantly")] else []
  let depth : List (String × String) :=
    if 32 < cur.dom_depth then
      let d := cur.dom_depth
      [("dom_depth", s!"Warning - DOM depth is {d} (more than 32 can impact performance)")] else []
  let scripts : List (String × String) :=
    if last.scripts < cur.scripts then
      let d := cur.scripts - last.scripts
      [("new_scripts", s!"Added {d} scripts")] else []
  growth ++ depth ++ scripts

/-- `_detect_dom_changes` (recon_engine.py:2178-2327), with the hidden
`self._last_dom_stats` instance state passed explicitly as `last` and
the freshly read JavaScript statistics as `cur`.  Models the
already-have-a-baseline branch (line 2251). -/
def detect_dom_changes (last cur : DomStats) : DomChanges :=
  let time_diff : ℚ := (cur.timestamp - last.timestamp) / 1000
  let after_loop := (stat_pairs last cur).foldl (dom_change_step time_diff)
    { summary := [], details := [], performance_impact := [], significant_changes := false }
  { after_loop with performance_impact := dom_performance_impact last cur }

/-- The impact dict built by `_calculate_impact`
(recon_engine.py:3432-3485).  The optional `context` parameter only
copies its argument into the result and is not modelled. -/
structure Impact where
  url_changed : Bool
  elements_added : Int
  text_added : Int
  cookies_modified : Bool
  storage_modified : Bool
  content_increase_pct : ℚ
  features_unlocked : List String
  effectiveness : String
deriving DecidableEq, Repr

/-- The `content_increase_pct` metric of `_calculate_impact`
(recon_engine.py:3445-3449). -/
def content_increase_pct_calc (before after : Snapshot) : ℚ :=
  if 0 < before.body_length.getD 0 then
    ((after.body_length.getD 0 : ℚ) - (before.body_length.getD 0 : ℚ))
      / (before.body_length.getD 0 : ℚ) * 100
  else 0

/-- The `features_unlocked` list of `_calculate_impact`
(recon_engine.py:3452-3462). -/
def features_unlocked_calc (before after : Snapshot) : List String :=
  (if before.downloadable_content.getD 0 < after.downloadable_content.getD 0 then
    ["additional_downloads"] else [])
  ++ (if before.interactive_elements.getD 0 < after.interactive_elements.getD 0 then
    ["new_interactions"] else [])
  ++ (if before.has_overlays.getD true && !(after.has_overlays.getD false) then
    ["unobstructed_view"] else [])

/-- The `significant_changes` test of `_calculate_impact`
(recon_engine.py:3465-3471). -/
def significant_changes_calc (before after : Snapshot) : Bool :=
  decide (before.url.getD "" ≠ after.url.getD "")
  || decide (10 < |(after.element_count.getD 0 : Int) - (before.element_count.getD 0 : Int)|)
  || decide (100 < |(after.body_length.getD 0 : Int) - (before.body_length.getD 0 : Int)|)
  || decide (0 < (features_unlocked_calc before after).length)
  || decide (20 < content_increase_pct_calc before after)

/-- `_calculate_impact(before, after)` (recon_engine.py:3432-3485). -/
def calculate_impact (before after : Snapshot) : Impact :=
  { url_changed := decide (before.url.getD "" ≠ after.url.getD ""),
    elements_added := (after.element_count.getD 0 : Int) - (before.element_count.getD 0 : Int),
    text_added := (after.body_length.getD 0 : Int) - (before.body_length.getD 0 : Int),
    cookies_modified := decide (after.cookies.getD 0 ≠ before.cookies.getD 0),
    storage_modified := decide (after.local_storage_items.getD 0 ≠ before.local_storage_items.getD 0),
    content_increase_pct := content_increase_pct_calc before after,
    features_unlocked := features_unlocked_calc before after,
    effectiveness :=
      if significant_changes_calc before after
          && decide (0 < (features_unlocked_calc before after).length) then "high"
      else if significant_changes_calc before after
          || decide (10 < content_increase_pct_calc before after) then "medium"
      else "low" }

/-- `impact['content_changes']` of `_measure_tactic_impact`
(recon_engine.py:3094-3100). -/
structure ContentChanges where
  text_length_before : Nat
  text_length_after : Nat
  text_added : Nat
  text_removed : Nat
  percent_change : ℚ
deriving DecidableEq, Repr

/-- `impact['visibility_changes']` (recon_engine.py:3116-3122). -/
structure VisibilityChanges where
  elements_revealed : Nat
  elements_hidden : Nat
  hidden_count : Nat
  page_height_change : Int
  became_scrollable : Bool
deriving DecidableEq, Repr

/-- The probe-specific `liberation_check` indicators read by the
JavaScript at recon_engine.py:3125-3140. -/
structure LiberationIndicators where
  no_fixed_overlays : Bool
  no_blur : Bool
  text_selectable : Bool
  right_click_enabled : Bool
  new_buttons : Nat
  new_links : Nat
  new_inputs : Nat
deriving DecidableEq, Repr

/-- `impact['performance_impact']` (recon_engine.py:3154-3157). -/
structure PerformanceImpact where
  execution_time : ℚ
  resource_change : Int
deriving DecidableEq, Repr

/-- The live-session reads `_measure_tactic_impact` performs inside its
`try` block: element count, current URL, body text length, the
visibility probe, the liberation-indicator probe, and the timing probe.
They are inputs of the embedded function. -/
structure LiveReads where
  element_count : Nat
  current_url : String
  body_text_length : Nat
  visible_elements : Nat
  hidden_elements : Nat
  viewport_height : Nat
  document_height : Int
  scrollable : Bool
  indicators : LiberationIndicators
  time_since_navigation : ℚ
  dom_content_loaded : ℚ
  resources_loaded : Nat
deriving DecidableEq, Repr

/-- The impact dict of `_measure_tactic_impact`
(recon_engine.py:3063-3201).  `none` values stand for keys still holding
their initial empty value (or, for `summary`, never created) when the
`try` block is aborted. -/
structure TacticImpact where
  success : Bool
  elements_changed : Nat
  url_changed : Bool
  new_element_count : Nat
  content_changes : Option ContentChanges
  visibility_changes : Option VisibilityChanges
  liberation_indicators : Option LiberationIndicators
  performance_impact : Option PerformanceImpact
  significant_change : Bool
  error : Option String
  summary : Option (List String)
deriving DecidableEq, Repr

/-- `_measure_tactic_impact(before_state)` (recon_engine.py:3063-3201).
Steps 1-5 fill the impact dict in place.  Step 6 computes
`timing_check['time_since_navigation'] - before_state.get('timestamp', 0)`:
when the stored timestamp is a string (as in every call from
`_run_safe_tactics`, which stores `datetime.now().isoformat()`), the
subtraction raises `TypeError`, so steps 6-8 never run — in particular
`significant_change` keeps its initial `False` — and the `except` branch
records the error and re-runs the basic fallback measurements. -/
def measure_tactic_impact (before : Snapshot) (live : LiveReads) : TacticImpact :=
  let elements_changed : Nat :=
    ((live.element_count : Int) - (before.element_count.getD 0 : Int)).natAbs
  let url_changed : Bool := decide (live.current_url ≠ before.url.getD "")
  let before_text := before.body_length.getD 0
  let content : ContentChanges :=
    { text_length_before := before_text, text_length_after := live.body_text_length,
      text_added := live.body_text_length - before_text,
      text_removed := before_text - live.body_text_length,
      percent_change :=
        (((live.body_text_length : Int) - (before_text : Int)).natAbs : ℚ)
          / (max before_text 1 : ℚ) * 100 }
  let before_visible := before.visible_elements.getD 0
  let visibility : VisibilityChanges :=
    { elements_revealed := live.visible_elements - before_visible,
      elements_hidden := before_visible - live.visible_elements,
      hidden_count := live.hidden_elements,
      page_height_change := live.document_height - before.document_height.getD 0,
      became_scrollable := live.scrollable && !(before.scrollable.getD false) }
  let lc := live.indicators
  match before.timestamp.getD (TimeVal.num 0) with
  | TimeVal.num t =>
    let perf : PerformanceImpact :=
      { execution_time := live.time_since_navigation - t,
        resource_change := (live.resources_loaded : Int) - (before.resources_loaded.getD 0 : Int) }
    let significant_factors : List Bool :=
      [decide (10 < elements_changed),
       decide (10 < content.percent_change),
       decide (5 < visibility.elements_revealed),
       url_changed,
       lc.no_fixed_overlays && !(before.no_fixed_overlays.getD true),
       lc.no_blur && !(before.no_blur.getD true),
       decide (0 < lc.new_buttons) || decide (0 < lc.new_links)]
    let summary : List String :=
      (if 0 < elements_changed then [s!"{elements_changed} elements changed"] else [])
      ++ (if 0 < visibility.elements_revealed then
            let r := visibility.elements_revealed
            [s!"{r} elements revealed"] else [])
      ++ (if 100 < content.text_added then
            let a := content.text_added
            [s!"~{a} characters of text revealed"] else [])
      ++ (if lc.no_fixed_overlays then ["Overlays removed"] else [])
      ++ (if lc.no_blur then ["Blur effects removed"] else [])
    { success := true, elements_changed := elements_changed,
      url_changed := url_changed, new_element_count := live.element_count,
      content_changes := some content, visibility_changes := some visibility,
      liberation_indicators := some lc, performance_impact := some perf,
      significant_change := significant_factors.any id,
      error := none, summary := some summary }
  | TimeVal.str _ =>
    { success := false, elements_changed := elements_changed,
      url_changed := url_changed, new_element_count := live.element_count,
      content_changes := some content, visibility_changes := some visibility,
      liberation_indicators := some lc, performance_impact := none,
      significant_change := false,
      error := some "TypeError: unsupported operand types for float minus str",
      summary := none }

/-- One entry of the `liberation_sequence` catalog: name, invasiveness
level and description (recon_engine.py:288-414).  The executable closure
is modelled by the probe-outcome parameter of the executors. -/
structure TacticDef where
  name : String
  level : Nat
  description : String
deriving DecidableEq, Repr

/-- The full 19-entry liberation sequence, in source order
(recon_engine.py:288-414). -/
def liberation_sequence : List TacticDef :=
  [{ name := "remove_overlays", level := 1, description := "Remove modal overlays and popups" },
   { name := "expand_content", level := 1, description := "Expand all collapsed content" },
   { name := "remove_sticky", level := 1, description := "Remove sticky headers/footers" },
   { name := "reveal_hidden", level := 1, description := "Make hidden elements visible" },
   { name := "disable_lazy_loading", level := 1, description := "Force lazy-loaded content to appear" },
   { name := "bypass_right_click", level := 2, description := "Enable right-click and text selection" },
   { name := "bypass_paywall", level := 2, description := "Attempt paywall bypass techniques" },
   { name := "manipulate_cookies", level := 3, description := "Set authentication cookies" },
   { name := "override_js_checks", level := 3, description := "Override JavaScript authentication checks" },
   { name := "spoof_referrer", level := 3, description := "Spoof referrer to appear from search" },
   { name := "extract_hidden_data", level := 4, description := "Extract all hidden metadata" },
   { name := "extract_shadow_dom", level := 4, description := "Extract shadow DOM content" },
   { name := "extract_storage", level := 4, description := "Extract browser storage data" },
   { name := "extract_canvas", level := 4, description := "Extract canvas/chart data" },
   { name := "detect_ajax", level := 5, description := "Deep AJAX pattern detection" },
   { name := "intercept_downloads", level := 5, description := "Intercept download attempts" },
   { name := "humanize_browser", level := 6, description := "Make browser appear human-controlled" },
   { name := "probe_endpoints", level := 6, description := "Probe for hidden API endpoints" },
   { name := "bypass_cloudflare", level := 6, description := "Attempt Cloudflare bypass" }]

/-- The 6-entry safe catalog of `_run_safe_tactics`, name and
description in source order (recon_engine.py:172-203); safe entries
carry no level key. -/
def safe_tactics : List (String × String) :=
  [("remove_overlays", "Remove popups and overlays blocking content"),
   ("expand_content", "Expand collapsed sections and hidden content"),
   ("extract_hidden_data", "Extract metadata and hidden information"),
   ("detect_ajax", "Monitor AJAX/dynamic content patterns"),
   ("disable_lazy_loading", "Force lazy-loaded content to appear"),
   ("extract_shadow_dom", "Extract content from shadow DOM elements")]

/-- The level the full catalog assigns to a tactic name. -/
def liberation_level (name : String) : Option Nat :=
  ((liberation_sequence.find? (fun t => t.name = name)).map (fun t => t.level))

/-- What one iteration of an executor loop observes of its `try` block:
either the probe returned a result dict (whose `success`, `details`,
`error` entries are read with `.get`), or some statement in the block
raised an exception with a class name and a message
(`type(e).__name__` and `str(e)`). -/
inductive ProbeOutcome where
  | ok (success : Bool) (details : String) (error : Option String)
  | exn (ty : String) (msg : String)
deriving DecidableEq, Repr

/-- One `enhanced_result` of `_run_liberation_tactics`
(recon_engine.py:444-456 on success, 495-504 on exception).  `none`
impact/state-changes stand for keys absent from the exception-path
dict. -/
structure LibResult where
  tactic : String
  level : Nat
  description : String
  execution_time : ℚ
  success : Bool
  details : String
  error : Option String
  impact : Option Impact
  state_changes : Option (List String)
deriving DecidableEq, Repr

/-- One `enhanced_result` of `_run_safe_tactics`
(recon_engine.py:223-233 on success, 266-274 on exception). -/
structure SafeResult where
  tactic : String
  description : String
  execution_time : ℚ
  success : Bool
  details : String
  error : Option String
  impact : Option TacticImpact
deriving DecidableEq, Repr

/-- One iteration of the liberation loop (recon_engine.py:420-504) for
tactic `t`.  On a probe return with falsy `success`, the built
`enhanced_result` is appended as is.  On a probe return with truthy
`success`, the success branch first evaluates
`enhanced_result['impact']['significant_change']` (line 463, outside
the inner screenshot `try`) — but `_calculate_impact` stores no
`significant_change` key, so a `KeyError` is raised and the outer
`except` appends a failure result instead (`success` false, `details`
`Exception: KeyError`, `error` the missing key name; Python renders
`str(KeyError)` with quotes around the key, which are dropped here).
On any exception in the `try` block, the failure result carries the
class name and message. -/
def exec_lib_tactic (t : TacticDef) (out : ProbeOutcome)
    (snaps : Snapshot × Snapshot) (dur : ℚ) : LibResult :=
  match out with
  | ProbeOutcome.ok s d e =>
    if s then
      { tactic := t.name, level := t.level, description := t.description,
        execution_time := 0, success := false,
        details := "Exception: KeyError", error := some "significant_change",
        impact := none, state_changes := none }
    else
      { tactic := t.name, level := t.level, description := t.description,
        execution_time := dur, success := s, details := d, error := e,
        impact := some (calculate_impact snaps.1 snaps.2),
        state_changes := some (detect_state_changes snaps.1 snaps.2) }
  | ProbeOutcome.exn ty msg =>
    { tactic := t.name, level := t.level, description := t.description,
      execution_time := 0, success := false,
      details := "Exception: " ++ ty, error := some msg,
      impact := none, state_changes := none }

/-- The liberation executor loop over an arbitrary catalog, as the code
iterates `for tactic in liberation_sequence` (recon_engine.py:420-504):
the probe outcome, the before/after snapshots (from
`_capture_state_snapshot`, which never raises) and the measured duration
of iteration `i` are supplied by the environment functions.  Every
iteration appends exactly one result; no branch leaves the loop. -/
def run_liberation_tactics_on (seq : List TacticDef)
    (behavior : Nat → ProbeOutcome) (snaps : Nat → Snapshot × Snapshot)
    (durs : Nat → ℚ) : List LibResult :=
  (seq.enum).map (fun p => exec_lib_tactic p.2 (behavior p.1) (snaps p.1) (durs p.1))

/-- `_run_liberation_tactics` (recon_engine.py:282-521), instantiated at
the full catalog. -/
def run_liberation_tactics (behavior : Nat → ProbeOutcome)
    (snaps : Nat → Snapshot × Snapshot) (durs : Nat → ℚ) : List LibResult :=
  run_liberation_tactics_on liberation_sequence behavior snaps durs

/-- The inline `before_state` dict of `_run_safe_tactics`
(recon_engine.py:211-215): only `url`, `element_count` and a
string-valued `timestamp` (`datetime.now().isoformat()`). -/
def safe_before_state (url : String) (element_count : Nat) (iso : String) : Snapshot :=
  { url := some url, element_count := some element_count,
    timestamp := some (TimeVal.str iso) }

/-- One iteration of the safe loop (recon_engine.py:206-274) for the
tactic named `nm`: like the liberation loop but with the inline
before-state and `_measure_tactic_impact`. -/
def exec_safe_tactic (nm desc : String) (out : ProbeOutcome)
    (before : Snapshot) (live : LiveReads) (dur : ℚ) : SafeResult :=
  match out with
  | ProbeOutcome.ok s d e =>
    { tactic := nm, description := desc, execution_time := dur,
      success := s, details := d, error := e,
      impact := some (measure_tactic_impact before live) }
  | ProbeOutcome.exn ty msg =>
    { tactic := nm, description := desc, execution_time := 0,
      success := false, details := "Exception: " ++ ty, error := some msg,
      impact := none }

/-- The safe executor loop over an arbitrary catalog of
(name, description) pairs (recon_engine.py:206-274). -/
def run_safe_tactics_on (seq : List (String × String))
    (behavior : Nat → ProbeOutcome)
    (env : Nat → String × Nat × String) (lives : Nat → LiveReads)
    (durs : Nat → ℚ) : List SafeResult :=
  (seq.enum).map (fun p =>
    let e := env p.1
    exec_safe_tactic p.2.1 p.2.2 (behavior p.1)
      (safe_before_state e.1 e.2.1 e.2.2) (lives p.1) (durs p.1))

/-- `_run_safe_tactics` (recon_engine.py:166-280), instantiated at the
safe catalog. -/
def run_safe_tactics (behavior : Nat → ProbeOutcome)
    (env : Nat → String × Nat × String) (lives : Nat → LiveReads)
    (durs : Nat → ℚ) : List SafeResult :=
  run_safe_tactics_on safe_tactics behavior env lives durs

/-- A Python `TypeError` raised by the call machinery itself. -/
inductive PyCallError where
  | typeError (msg : String)
deriving DecidableEq, Repr

/-- Python bound-method call semantics restricted to positional arity:
a call supplying fewer positional arguments than the method declares
(beyond `self`) raises `TypeError` before the body runs. -/
def python_call {α : Type} (required supplied : Nat) (body : Unit → α) :
    Except PyCallError α :=
  if supplied < required then
    Except.error (PyCallError.typeError "missing 1 required positional argument: report")
  else Except.ok (body ())

/-- `_run_liberation_tactics(self, report)` and
`_run_safe_tactics(self, report)` each declare exactly one required
positional parameter beyond `self` (recon_engine.py:166, 282). -/
def run_tactics_required_params : Nat := 1

/-- `scout_site` supplies zero arguments at both call sites
(`self._run_liberation_tactics()` at recon_engine.py:90,
`self._run_safe_tactics()` at recon_engine.py:93). -/
def scout_site_supplied_args : Nat := 0

/-- The phase-2 step of `scout_site` (recon_engine.py:87-93): dispatch
on `safe_mode` and call the corresponding executor with the arguments
`scout_site` actually supplies.  The bodies stand for the executor runs
that would produce the tactic results. -/
def scout_site_phase2 (safe_mode : Bool)
    (lib_body : Unit → List LibResult) (safe_body : Unit → List SafeResult) :
    Except PyCallError (List LibResult ⊕ List SafeResult) :=
  if safe_mode then
    (python_call run_tactics_required_params scout_site_supplied_args safe_body).map Sum.inr
  else
    (python_call run_tactics_required_params scout_site_supplied_args lib_body).map Sum.inl

/-! Helper lemmas about the executors. -/

lemma exec_lib_tactic_name (t : TacticDef) (out : ProbeOutcome)
    (snaps : Snapshot × Snapshot) (dur : ℚ) :
    (exec_lib_tactic t out snaps dur).tactic = t.name := by
  cases out with
  | ok s d e => cases s <;> rfl
  | exn ty msg => rfl

lemma exec_safe_tactic_name (nm desc : String) (out : ProbeOutcome)
    (before : Snapshot) (live : LiveReads) (dur : ℚ) :
    (exec_safe_tactic nm desc out before live dur).tactic = nm := by
  cases out <;> rfl

/-- The `details` field of an exception result is never the empty
string: it always starts with `Exception: `. -/
lemma exception_details_ne_empty (ty : String) : "Exception: " ++ ty ≠ "" := by
  intro h
  have hd := congrArg String.data h
  rw [String.data_append] at hd
  have := List.append_eq_nil.mp hd
  exact absurd this.1 (by decide)

lemma run_lib_on_length (seq : List TacticDef) (behavior : Nat → ProbeOutcome)
    (snaps : Nat → Snapshot × Snapshot) (durs : Nat → ℚ) :
    (run_liberation_tactics_on seq behavior snaps durs).length = seq.length := by
  simp [run_liberation_tactics_on]

lemma run_safe_on_length (seq : List (String × String)) (behavior : Nat → ProbeOutcome)
    (env : Nat → String × Nat × String) (lives : Nat → LiveReads) (durs : Nat → ℚ) :
    (run_safe_tactics_on seq behavior env lives durs).length = seq.length := by
  simp [run_safe_tactics_on]

lemma run_safe_length (behavior : Nat → ProbeOutcome)
    (env : Nat → String × Nat × String) (lives : Nat → LiveReads) (durs : Nat → ℚ) :
    (run_safe_tactics behavior env lives durs).length = safe_tactics.length :=
  run_safe_on_length safe_tactics behavior env lives durs

lemma run_lib_on_get (seq : List TacticDef) (behavior : Nat → ProbeOutcome)
    (snaps : Nat → Snapshot × Snapshot) (durs : Nat → ℚ) (i : Nat) (hi : i < seq.length) :
    (run_liberation_tactics_on seq behavior snaps durs).get
      ⟨i, by rw [run_lib_on_length]; exact hi⟩ =
    exec_lib_tactic (seq.get ⟨i, hi⟩) (behavior i) (snaps i) (durs i) := by
  simp [run_liberation_tactics_on, List.get_eq_getElem, List.getElem_map, List.getElem_enum]

lemma run_safe_on_get (seq : List (String × String)) (behavior : Nat → ProbeOutcome)
    (env : Nat → String × Nat × String) (lives : Nat → LiveReads) (durs : Nat → ℚ)
    (i : Nat) (hi : i < seq.length) :
    (run_safe_tactics_on seq behavior env lives durs).get
      ⟨i, by rw [run_safe_on_length]; exact hi⟩ =
    exec_safe_tactic (seq.get ⟨i, hi⟩).1 (seq.get ⟨i, hi⟩).2 (behavior i)
      (safe_before_state (env i).1 (env i).2.1 (env i).2.2) (lives i) (durs i) := by
  simp [run_safe_tactics_on, List.get_eq_getElem, List.getElem_map, List.getElem_enum]

lemma run_lib_on_map_tactic (seq : List TacticDef) (behavior : Nat → ProbeOutcome)
    (snaps : Nat → Snapshot × Snapshot) (durs : Nat → ℚ) :
    (run_liberation_tactics_on seq behavior snaps durs).map (fun r => r.tactic) =
      seq.map (fun t => t.name) := by
  unfold run_liberation_tactics_on
  rw [List.map_map]
  have hfun : ((fun r : LibResult => r.tactic) ∘
      fun p : Nat × TacticDef => exec_lib_tactic p.2 (behavior p.1) (snaps p.1) (durs p.1))
      = (fun t : TacticDef => t.name) ∘ Prod.snd := by
    funext p
    exact exec_lib_tactic_name p.2 (behavior p.1) (snaps p.1) (durs p.1)
  rw [hfun, ← List.map_map, List.enum_map_snd]

lemma run_safe_on_map_tactic (seq : List (String × String)) (behavior : Nat → ProbeOutcome)
    (env : Nat → String × Nat × String) (lives : Nat → LiveReads) (durs : Nat → ℚ) :
    (run_safe_tactics_on seq behavior env lives durs).map (fun r => r.tactic) =
      seq.map Prod.fst := by
  unfold run_safe_tactics_on
  rw [List.map_map]
  have hfun : ((fun r : SafeResult => r.tactic) ∘
      fun p : Nat × (String × String) =>
        exec_safe_tactic p.2.1 p.2.2 (behavior p.1)
          (safe_before_state (env p.1).1 (env p.1).2.1 (env p.1).2.2) (lives p.1) (durs p.1))
      = (Prod.fst : String × String → String) ∘ Prod.snd := by
    funext p
    exact exec_safe_tactic_name p.2.1 p.2.2 (behavior p.1) _ (lives p.1) (durs p.1)
  rw [hfun, ← List.map_map, List.enum_map_snd]

/-! Helper lemmas about the DOM diff engine. -/

lemma numeric_change_info_sig (td : ℚ) (lv cv : Nat) :
    ((numeric_change_info td lv cv).significance = "major" ↔
      50 < |raw_change_percent lv cv|) ∧
    ((numeric_change_info td lv cv).significance = "moderate" ↔
      20 < |raw_change_percent lv cv| ∧ |raw_change_percent lv cv| ≤ 50) ∧
    ((numeric_change_info td lv cv).significance = "minor" ↔
      |raw_change_percent lv cv| ≤ 20) := by
  simp only [numeric_change_info]
  split_ifs with h1 h2
  · exact ⟨iff_of_true rfl h1,
      iff_of_false (by decide) (fun h => absurd h1 (not_lt.mpr h.2)),
      iff_of_false (by decide)
        (fun hle => absurd h1 (not_lt.mpr (le_trans hle (by norm_num))))⟩
  · exact ⟨iff_of_false (by decide) h1,
      iff_of_true rfl ⟨h2, not_lt.mp h1⟩,
      iff_of_false (by decide) (fun hle => absurd h2 (not_lt.mpr hle))⟩
  · exact ⟨iff_of_false (by decide) h1,
      iff_of_false (by decide) (fun h => absurd h.1 h2),
      iff_of_true rfl (not_lt.mp h2)⟩

/-- The diff record has at least one metric classified `major`. -/
def has_major (c : DomChanges) : Prop :=
  ∃ key info, (key, ChangeDetail.numeric info) ∈ c.details ∧ info.significance = "major"

lemma exists_major_append_nonnum (l : List (String × ChangeDetail))
    (key : String) (lv cv : StatVal) :
    (∃ k i, (k, ChangeDetail.numeric i) ∈ l ++ [(key, ChangeDetail.nonNumeric lv cv)] ∧
      i.significance = "major") ↔
    (∃ k i, (k, ChangeDetail.numeric i) ∈ l ∧ i.significance = "major") := by
  simp [List.mem_append, or_and_right, exists_or]

lemma exists_major_append_num (l : List (String × ChangeDetail))
    (key : String) (info : NumericChange) :
    (∃ k i, (k, ChangeDetail.numeric i) ∈ l ++ [(key, ChangeDetail.numeric info)] ∧
      i.significance = "major") ↔
    ((∃ k i, (k, ChangeDetail.numeric i) ∈ l ∧ i.significance = "major") ∨
      info.significance = "major") := by
  simp only [List.mem_append, List.mem_singleton, or_and_right, exists_or]
  constructor
  · rintro (h | ⟨x, y, hxy, hp⟩)
    · exact Or.inl h
    · obtain ⟨rfl, rfl⟩ : x = key ∧ y = info := by
        have h1 := congrArg Prod.fst hxy
        have h2 := congrArg Prod.snd hxy
        simp at h1 h2
        exact ⟨h1, h2⟩
      exact Or.inr hp
  · rintro (h | hp)
    · exact Or.inl h
    · exact Or.inr ⟨key, info, rfl, hp⟩

/-- Invariant of the metric loop: every recorded numeric entry was built
by `numeric_change_info` from a genuinely changed value pair, and the
significance flag holds exactly when some recorded metric is `major`. -/
def step_inv (td : ℚ) (c : DomChanges) : Prop :=
  (∀ key info, (key, ChangeDetail.numeric info) ∈ c.details →
    ∃ a b, a ≠ b ∧ info = numeric_change_info td a b) ∧
  (c.significant_changes = true ↔ has_major c)

lemma dom_change_step_inv (td : ℚ) (acc : DomChanges)
    (e : String × StatVal × StatVal) (h : step_inv td acc) :
    step_inv td (dom_change_step td acc e) := by
  obtain ⟨key, lv, cv⟩ := e
  simp only [dom_change_step]
  split
  · rename_i hcond
    cases lv with
    | num a =>
      cases cv with
      | num b =>
        have hab : a ≠ b := fun hh => hcond (by rw [hh])
        constructor
        · intro k i hm
          rcases List.mem_append.mp hm with hold | hnew
          · exact h.1 k i hold
          · have heq : (k, ChangeDetail.numeric i) =
                (key, ChangeDetail.numeric (numeric_change_info td a b)) :=
              List.mem_singleton.mp hnew
            have hi : i = numeric_change_info td a b := by
              have h2 := congrArg Prod.snd heq
              simpa using h2
            exact ⟨a, b, hab, hi⟩
        · simp only [has_major] at h ⊢
          rw [exists_major_append_num, Bool.or_eq_true, decide_eq_true_eq, h.2,
              (numeric_change_info_sig td a b).1]
          simp only [has_major]
      | str sb =>
        constructor
        · intro k i hm
          rcases List.mem_append.mp hm with hold | hnew
          · exact h.1 k i hold
          · have heq := List.mem_singleton.mp hnew
            have h2 := congrArg Prod.snd heq
            simp at h2
        · simp only [has_major] at h ⊢
          rw [exists_major_append_nonnum]
          exact h.2
    | str sa =>
      cases cv with
      | num b =>
        constructor
        · intro k i hm
          rcases List.mem_append.mp hm with hold | hnew
          · exact h.1 k i hold
          · have heq := List.mem_singleton.mp hnew
            have h2 := congrArg Prod.snd heq
            simp at h2
        · simp only [has_major] at h ⊢
          rw [exists_major_append_nonnum]
          exact h.2
      | str sb =>
        constructor
        · intro k i hm
          rcases List.mem_append.mp hm with hold | hnew
          · exact h.1 k i hold
          · have heq := List.mem_singleton.mp hnew
            have h2 := congrArg Prod.snd heq
            simp at h2
        · simp only [has_major] at h ⊢
          rw [exists_major_append_nonnum]
          exact h.2
  · exact h

lemma fold_inv (td : ℚ) :
    ∀ (pairs : List (String × StatVal × StatVal)) (acc : DomChanges),
      step_inv td acc → step_inv td (pairs.foldl (dom_change_step td) acc) := by
  intro pairs
  induction pairs with
  | nil => intro acc h; exact h
  | cons hd tl ih =>
    intro acc h
    rw [List.foldl_cons]
    exact ih _ (dom_change_step_inv td acc hd h)

lemma fold_details_mono (td : ℚ) :
    ∀ (pairs : List (String × StatVal × StatVal)) (acc : DomChanges)
      (x : String × ChangeDetail), x ∈ acc.details →
      x ∈ (pairs.foldl (dom_change_step td) acc).details := by
  intro pairs
  induction pairs with
  | nil => intro acc x hx; exact hx
  | cons hd tl ih =>
    intro acc x hx
    rw [List.foldl_cons]
    apply ih
    obtain ⟨key, lv, cv⟩ := hd
    simp only [dom_change_step]
    split
    · cases lv <;> cases cv <;> exact List.mem_append_left _ hx
    · exact hx

lemma fold_details_complete (td : ℚ) :
    ∀ (pairs : List (String × StatVal × StatVal)) (acc : DomChanges)
      (key : String) (a b : Nat),
      (key, StatVal.num a, StatVal.num b) ∈ pairs → a ≠ b →
      (key, ChangeDetail.numeric (numeric_change_info td a b)) ∈
        (pairs.foldl (dom_change_step td) acc).details := by
  intro pairs
  induction pairs with
  | nil => intro acc key a b h _; exact absurd h (List.not_mem_nil _)
  | cons hd tl ih =>
    intro acc key a b hmem hne
    rw [List.foldl_cons]
    rcases List.mem_cons.mp hmem with heq | htl
    · apply fold_details_mono
      subst heq
      simp only [dom_change_step]
      rw [if_pos (by simpa using Ne.symm hne)]
      exact List.mem_append_right _ (List.mem_singleton.mpr rfl)
    · exact ih _ key a b htl hne

/-! Helper lemmas about the impact assessor. -/

/-- The `significant_changes` test of `_calculate_impact` re-expressed
over the recorded fields of the resulting impact record. -/
def Impact.significantB (i : Impact) : Bool :=
  i.url_changed || decide (10 < |i.elements_added|) || decide (100 < |i.text_added|)
  || decide (0 < i.features_unlocked.length) || decide (20 < i.content_increase_pct)

lemma calculate_impact_high_of_features (before after : Snapshot)
    (h : features_unlocked_calc before after ≠ []) :
    (calculate_impact before after).effectiveness = "high" := by
  have hlen : 0 < (features_unlocked_calc before after).length := List.length_pos.mpr h
  have hd : decide (0 < (features_unlocked_calc before after).length) = true :=
    decide_eq_true hlen
  have hs : significant_changes_calc before after = true := by
    unfold significant_changes_calc
    rw [hd]
    simp
  simp [calculate_impact, hs, hd]

/-! Concrete inputs used by witnesses, counterexamples and evaluations. -/

/-- A session whose six metric reads all succeed. -/
def all_ok_reads : SessionReads :=
  { current_url := Except.ok "http://t", title := Except.ok "T",
    element_count := Except.ok 10, body_length := Except.ok 100,
    cookie_count := Except.ok 1, local_storage_items := Except.ok 0 }

/-- A session where only the cookie read raises (a detached element):
the four reads before it succeed. -/
def failing_cookie_reads : SessionReads :=
  { current_url := Except.ok "http://t", title := Except.ok "T",
    element_count := Except.ok 42, body_length := Except.ok 1000,
    cookie_count := Except.error "detached element", local_storage_items := Except.ok 2 }

/-- A before-state as `_run_safe_tactics` builds it: the timestamp is an
ISO string. -/
def iso_before_state : Snapshot := safe_before_state "http://a" 10 "2025-01-01T00:00:00"

/-- Live session reads showing a navigation URL change and nothing else. -/
def url_change_live : LiveReads :=
  { element_count := 10, current_url := "http://b", body_text_length := 0,
    visible_elements := 0, hidden_elements := 0, viewport_height := 0,
    document_height := 0, scrollable := false,
    indicators := { no_fixed_overlays := false, no_blur := false,
                    text_selectable := true, right_click_enabled := true,
                    new_buttons := 0, new_links := 0, new_inputs := 0 },
    time_since_navigation := 100, dom_content_loaded := 0, resources_loaded := 0 }

/-- Live session reads with no observable change. -/
def dummy_live : LiveReads :=
  { element_count := 0, current_url := "u", body_text_length := 0,
    visible_elements := 0, hidden_elements := 0, viewport_height := 0,
    document_height := 0, scrollable := false,
    indicators := { no_fixed_overlays := false, no_blur := false,
                    text_selectable := true, right_click_enabled := true,
                    new_buttons := 0, new_links := 0, new_inputs := 0 },
    time_since_navigation := 0, dom_content_loaded := 0, resources_loaded := 0 }

/-- A hypothetical 5-entry catalog, for the 5-tactic scenario of the
specification. -/
def five_catalog : List TacticDef :=
  [{ name := "t1", level := 1, description := "d1" },
   { name := "t2", level := 1, description := "d2" },
   { name := "t3", level := 2, description := "d3" },
   { name := "t4", level := 2, description := "d4" },
   { name := "t5", level := 3, description := "d5" }]

/-- A probe behavior where tactic 3 (index 2) raises and all others
return a successful result dict. -/
def third_raises : Nat → ProbeOutcome := fun i =>
  if i = 2 then ProbeOutcome.exn "JavascriptException" "probe script failed"
  else ProbeOutcome.ok true "done" none

/-- A probe behavior where the first tactic succeeds and the session is
lost from tactic 2 (index 1) on: every later probe raises. -/
def session_lost_behavior : Nat → ProbeOutcome := fun i =>
  if i = 0 then ProbeOutcome.ok true "overlays removed" none
  else ProbeOutcome.exn "WebDriverException" "session deleted"

def trivial_safe_env : Nat → String × Nat × String :=
  fun _ => ("http://t", 10, "2025-01-01T00:00:00")

/-- DOM statistics baseline: 3 total elements, all other counts zero. -/
def cex_last_stats : DomStats :=
  { total_elements := 3, images := 0, links := 0, forms := 0, scripts := 0,
    iframes := 0, body_length := 0, body_hash := "h", buttons := 0, inputs := 0,
    ajax_elements := 0, lazy_images := 0, dom_depth := 0, hidden_elements := 0,
    timestamp := 0 }

/-- The same statistics with `total_elements` grown from 3 to 4. -/
def cex_cur_stats : DomStats :=
  { cex_last_stats with total_elements := 4 }

/-- Claim C1: over any catalog run by the liberation executor loop and
over the 6-entry safe list, each catalog entry yields exactly one
appended result carrying a definite success boolean, in catalog order
(the result lists have exactly the catalog lengths and carry the
catalog names position by position, the full catalogs having 19 and 6
entries); when the probe raises, the appended result has
`success = false`, a non-empty error description and the raised
message, and execution still reaches every later tactic.  In the
liberation loop the recorded boolean is `false` even for a probe that
returned a truthy success flag, because reading the absent
`significant_change` key raises `KeyError` and the outer `except`
records that failure; in the safe loop the returned flag is recorded
as is. -/
theorem C1_executor_result_completeness_and_fault_isolation
    (seq : List TacticDef) (behavior : Nat → ProbeOutcome)
    (snaps : Nat → Snapshot × Snapshot) (durs : Nat → ℚ)
    (sseq : List (String × String)) (sbehavior : Nat → ProbeOutcome)
    (senv : Nat → String × Nat × String) (slives : Nat → LiveReads) (sdurs : Nat → ℚ) :
    liberation_sequence.length = 19 ∧
    safe_tactics.length = 6 ∧
    (run_liberation_tactics_on seq behavior snaps durs).length = seq.length ∧
    (run_safe_tactics_on sseq sbehavior senv slives sdurs).length = sseq.length ∧
    (run_liberation_tactics_on seq behavior snaps durs).map (fun r => r.tactic) =
      seq.map (fun t => t.name) ∧
    (run_safe_tactics_on sseq sbehavior senv slives sdurs).map (fun r => r.tactic) =
      sseq.map Prod.fst ∧
    (∀ i (hi : i < seq.length) d e, behavior i = ProbeOutcome.ok false d e →
      ((run_liberation_tactics_on seq behavior snaps durs).get
        ⟨i, by rw [run_lib_on_length]; exact hi⟩).success = false ∧
      ((run_liberation_tactics_on seq behavior snaps durs).get
        ⟨i, by rw [run_lib_on_length]; exact hi⟩).details = d ∧
      ((run_liberation_tactics_on seq behavior snaps durs).get
        ⟨i, by rw [run_lib_on_length]; exact hi⟩).error = e) ∧
    (∀ i (hi : i < seq.length) d e, behavior i = ProbeOutcome.ok true d e →
      ((run_liberation_tactics_on seq behavior snaps durs).get
        ⟨i, by rw [run_lib_on_length]; exact hi⟩).success = false ∧
      ((run_liberation_tactics_on seq behavior snaps durs).get
        ⟨i, by rw [run_lib_on_length]; exact hi⟩).details = "Exception: KeyError" ∧
      ((run_liberation_tactics_on seq behavior snaps durs).get
        ⟨i, by rw [run_lib_on_length]; exact hi⟩).error = some "significant_change") ∧
    (∀ i (hi : i < seq.length) ty msg, behavior i = ProbeOutcome.exn ty msg →
      ((run_liberation_tactics_on seq behavior snaps durs).get
        ⟨i, by rw [run_lib_on_length]; exact hi⟩).success = false ∧
      ((run_liberation_tactics_on seq behavior snaps durs).get
        ⟨i, by rw [run_lib_on_length]; exact hi⟩).details ≠ "" ∧
      ((run_liberation_tactics_on seq behavior snaps durs).get
        ⟨i, by rw [run_lib_on_length]; exact hi⟩).error = some msg) ∧
    (∀ i (hi : i < sseq.length) s d e, sbehavior i = ProbeOutcome.ok s d e →
      ((run_safe_tactics_on sseq sbehavior senv slives sdurs).get
        ⟨i, by rw [run_safe_on_length]; exact hi⟩).success = s) ∧
    (∀ i (hi : i < sseq.length) ty msg, sbehavior i = ProbeOutcome.exn ty msg →
      ((run_safe_tactics_on sseq sbehavior senv slives sdurs).get
        ⟨i, by rw [run_safe_on_length]; exact hi⟩).success = false ∧
      ((run_safe_tactics_on sseq sbehavior senv slives sdurs).get
        ⟨i, by rw [run_safe_on_length]; exact hi⟩).details ≠ "") := by
  refine ⟨rfl, rfl, run_lib_on_length seq behavior snaps durs,
    run_safe_on_length sseq sbehavior senv slives sdurs,
    run_lib_on_map_tactic seq behavior snaps durs,
    run_safe_on_map_tactic sseq sbehavior senv slives sdurs, ?_, ?_, ?_, ?_, ?_⟩
  · intro i hi d e hb
    rw [run_lib_on_get seq behavior snaps durs i hi, hb]
    exact ⟨rfl, rfl, rfl⟩
  · intro i hi d e hb
    rw [run_lib_on_get seq behavior snaps durs i hi, hb]
    exact ⟨rfl, rfl, rfl⟩
  · intro i hi ty msg hb
    rw [run_lib_on_get seq behavior snaps durs i hi, hb]
    exact ⟨rfl, exception_details_ne_empty ty, rfl⟩
  · intro i hi s d e hb
    rw [run_safe_on_get sseq sbehavior senv slives sdurs i hi, hb]
    rfl
  · intro i hi ty msg hb
    rw [run_safe_on_get sseq sbehavior senv slives sdurs i hi, hb]
    exact ⟨rfl, exception_details_ne_empty ty⟩

/-- Witness for C1 at the 5-tactic scenario: tactic 3 raises, the run
still yields 5 results in catalog order, result 3 is a recorded failure
with a non-empty error description, and tactics 4 and 5 are executed
and recorded — in the liberation loop as the `KeyError` failures the
program produces for truthy probe returns; the safe loop records a
truthy probe return as a success. -/
theorem C1_five_tactic_witness :
    (third_raises 2 = ProbeOutcome.exn "JavascriptException" "probe script failed") ∧
    (third_raises 3 = ProbeOutcome.ok true "done" none) ∧
    (run_liberation_tactics_on five_catalog third_raises (fun _ => ({}, {})) (fun _ => 1)).length
      = 5 ∧
    (run_liberation_tactics_on five_catalog third_raises (fun _ => ({}, {})) (fun _ => 1)).map
      (fun r => r.tactic) = ["t1", "t2", "t3", "t4", "t5"] ∧
    ((run_liberation_tactics_on five_catalog third_raises (fun _ => ({}, {})) (fun _ => 1)).get
      ⟨2, by rw [run_lib_on_length]; decide⟩).success = false ∧
    ((run_liberation_tactics_on five_catalog third_raises (fun _ => ({}, {})) (fun _ => 1)).get
      ⟨2, by rw [run_lib_on_length]; decide⟩).details ≠ "" ∧
    ((run_liberation_tactics_on five_catalog third_raises (fun _ => ({}, {})) (fun _ => 1)).get
      ⟨3, by rw [run_lib_on_length]; decide⟩).success = false ∧
    ((run_liberation_tactics_on five_catalog third_raises (fun _ => ({}, {})) (fun _ => 1)).get
      ⟨3, by rw [run_lib_on_length]; decide⟩).details = "Exception: KeyError" ∧
    ((run_liberation_tactics_on five_catalog third_raises (fun _ => ({}, {})) (fun _ => 1)).get
      ⟨4, by rw [run_lib_on_length]; decide⟩).success = false ∧
    ((run_liberation_tactics_on five_catalog third_raises (fun _ => ({}, {})) (fun _ => 1)).get
      ⟨4, by rw [run_lib_on_length]; decide⟩).details = "Exception: KeyError" ∧
    ((run_safe_tactics_on safe_tactics third_raises (fun _ => ("u", 0, "ts"))
      (fun _ => dummy_live) (fun _ => 1)).get
      ⟨0, by rw [run_safe_on_length]; decide⟩).success = true := by
  have h := C1_executor_result_completeness_and_fault_isolation
    five_catalog third_raises (fun _ => ({}, {})) (fun _ => 1)
    safe_tactics third_raises (fun _ => ("u", 0, "ts")) (fun _ => dummy_live) (fun _ => 1)
  have hexn := h.2.2.2.2.2.2.2.2.1 2 (by decide) "JavascriptException" "probe script failed" rfl
  have hok3 := h.2.2.2.2.2.2.2.1 3 (by decide) "done" none rfl
  have hok4 := h.2.2.2.2.2.2.2.1 4 (by decide) "done" none rfl
  have hsafe := h.2.2.2.2.2.2.2.2.2.1 0 (by decide) true "done" none rfl
  exact ⟨rfl, rfl, h.2.2.1.trans rfl, h.2.2.2.2.1.trans rfl, hexn.1, hexn.2.1,
    hok3.1, hok3.2.1, hok4.1, hok4.2.1, hsafe⟩

/-- Claim C2, counterexample: comparing stats whose `total_elements`
grows from 3 to 4 records a `change_percent` of 33.3 (the percent
rounded to one decimal), not `change / before * 100 = 100 / 3`, so the
recorded `change_percent` is not `change / before * 100` as claimed. -/
theorem C2_counterexample :
    ("total_elements", ChangeDetail.numeric
      (numeric_change_info ((cex_cur_stats.timestamp - cex_last_stats.timestamp) / 1000) 3 4)) ∈
      (detect_dom_changes cex_last_stats cex_cur_stats).details ∧
    (numeric_change_info
      ((cex_cur_stats.timestamp - cex_last_stats.timestamp) / 1000) 3 4).change_percent
      = 333 / 10 ∧
    (333 : ℚ) / 10 ≠ ((4 : ℚ) - 3) / 3 * 100 := by
  refine ⟨?_, ?_, by norm_num⟩
  · exact fold_details_complete _ _ _ _ 3 4 (by decide) (by decide)
  · show py_round (raw_change_percent 3 4) 1 = 333 / 10
    have hraw : raw_change_percent 3 4 = 100 / 3 := by
      norm_num [raw_change_percent]
    rw [hraw]
    have hfl : round_half_even (100 / 3 * (10 : ℚ) ^ (1 : Nat)) = 333 := by
      have h1 : (100 / 3 * (10 : ℚ) ^ (1 : Nat)) = 1000 / 3 := by norm_num
      rw [h1]
      have hfloor : ⌊(1000 / 3 : ℚ)⌋ = 333 := by
        norm_num [Int.floor_eq_iff]
      simp only [round_half_even, hfloor]
      norm_num
    simp only [py_round, hfl]
    norm_num

/-- Claim C2 as amended: for every pair of compared snapshots and every
numeric metric present in both whose values differ, the diff records
`change = after - before` and `change_percent` equal to
`change / before * 100` rounded to one decimal (0 when `before` is 0);
the significance is classified on the unrounded percent, `major` exactly
when its magnitude exceeds 50, `moderate` exactly when it exceeds 20 but
not 50, `minor` otherwise; and `significant_changes` is true exactly
when at least one recorded metric is classified `major`. -/
theorem C2_amended_diff_classification (last cur : DomStats) :
    (∀ key a b,
      (key, StatVal.num a, StatVal.num b) ∈ stat_pairs last cur → a ≠ b →
      (key, ChangeDetail.numeric
        (numeric_change_info ((cur.timestamp - last.timestamp) / 1000) a b)) ∈
        (detect_dom_changes last cur).details) ∧
    (∀ key info, (key, ChangeDetail.numeric info) ∈ (detect_dom_changes last cur).details →
      info.change = (info.current : Int) - (info.previous : Int) ∧
      info.change_percent = py_round (raw_change_percent info.previous info.current) 1 ∧
      (info.significance = "major" ↔ 50 < |raw_change_percent info.previous info.current|) ∧
      (info.significance = "moderate" ↔
        20 < |raw_change_percent info.previous info.current| ∧
        |raw_change_percent info.previous info.current| ≤ 50) ∧
      (info.significance = "minor" ↔
        |raw_change_percent info.previous info.current| ≤ 20)) ∧
    ((detect_dom_changes last cur).significant_changes = true ↔
      ∃ key info,
        (key, ChangeDetail.numeric info) ∈ (detect_dom_changes last cur).details ∧
        info.significance = "major") := by
  have hinv := fold_inv ((cur.timestamp - last.timestamp) / 1000) (stat_pairs last cur)
      { summary := [], details := [], performance_impact := [], significant_changes := false }
      ⟨fun k i hm => absurd hm (List.not_mem_nil _), by simp [has_major]⟩
  refine ⟨?_, ?_, ?_⟩
  · intro key a b hmem hne
    exact fold_details_complete _ _ _ key a b hmem hne
  · intro key info hm
    obtain ⟨a, b, hab, rfl⟩ := hinv.1 key info hm
    exact ⟨rfl, rfl, (numeric_change_info_sig _ a b).1,
      (numeric_change_info_sig _ a b).2.1, (numeric_change_info_sig _ a b).2.2⟩
  · have h2 := hinv.2
    simp only [has_major] at h2
    exact h2

/-- Witness for C2 as amended, at the 3-to-4 `total_elements` growth:
the changed metric is recorded in the details of the diff. -/
theorem C2_amended_witness :
    (("total_elements", StatVal.num 3, StatVal.num 4) ∈
      stat_pairs cex_last_stats cex_cur_stats) ∧
    ((3 : Nat) ≠ 4) ∧
    ("total_elements", ChangeDetail.numeric
      (numeric_change_info ((cex_cur_stats.timestamp - cex_last_stats.timestamp) / 1000) 3 4)) ∈
      (detect_dom_changes cex_last_stats cex_cur_stats).details :=
  ⟨by decide, by decide,
    (C2_amended_diff_classification cex_last_stats cex_cur_stats).1
      "total_elements" 3 4 (by decide) (by decide)⟩

/-- Claim C3, code-bug evaluation: at the failing input of the safe run
(the before-state carries the ISO-string timestamp that
`_run_safe_tactics` stores) with the navigation URL changed, the
recorded impact has `url_changed = true` yet `significant_change` stays
`false`: the `TypeError` raised at the performance-impact subtraction
(float minus string) aborts the measurement before the factor
disjunction at recon_engine.py:3159-3170 ever runs, so the measurement
is flagged failed instead. -/
theorem C3_code_bug_significant_change_stays_false :
    (measure_tactic_impact iso_before_state url_change_live).url_changed = true ∧
    (measure_tactic_impact iso_before_state url_change_live).success = false ∧
    (measure_tactic_impact iso_before_state url_change_live).error ≠ none ∧
    (measure_tactic_impact iso_before_state url_change_live).significant_change = false := by
  refine ⟨?_, rfl, ?_, rfl⟩ <;> decide

/-- Claim C4: the effectiveness rating of `_calculate_impact` is `high`
exactly when the change is significant and at least one concrete
feature was unlocked, `medium` when the change is significant or the
content grew by more than 10 percent, and `low` otherwise. -/
theorem C4_effectiveness_rating (before after : Snapshot) :
    (calculate_impact before after).effectiveness =
      (if (calculate_impact before after).significantB
            && decide (0 < (calculate_impact before after).features_unlocked.length) then "high"
       else if (calculate_impact before after).significantB
            || decide (10 < (calculate_impact before after).content_increase_pct) then "medium"
       else "low") := rfl

/-- Claim C5: diffing a snapshot against itself yields no significance
flag, an empty per-metric detail list and an empty summary (hence no
metric records a non-zero delta and none is classified `major` or
`moderate`), and the detected state-change list is empty. -/
theorem C5_self_diff_no_changes (d : DomStats) (s : Snapshot) :
    (detect_dom_changes d d).significant_changes = false ∧
    (detect_dom_changes d d).details = [] ∧
    (detect_dom_changes d d).summary = [] ∧
    detect_state_changes s s = [] := by
  refine ⟨?_, ?_, ?_, ?_⟩ <;>
    simp [detect_dom_changes, stat_pairs, dom_change_step, detect_state_changes]

/-- Claim C6, counterexample: losing the session at tactic 2 of the
6-entry safe run does not terminate the run: all 6 results are still
produced (not exactly 1), and results exist for tactics 2 through 6,
recorded as failures. -/
theorem C6_counterexample :
    (run_safe_tactics session_lost_behavior trivial_safe_env
      (fun _ => dummy_live) (fun _ => 1)).length = 6 ∧
    (run_safe_tactics session_lost_behavior trivial_safe_env
      (fun _ => dummy_live) (fun _ => 1)).map (fun r => r.success) =
      [true, false, false, false, false, false] ∧
    (run_safe_tactics session_lost_behavior trivial_safe_env
      (fun _ => dummy_live) (fun _ => 1)).map (fun r => r.tactic) =
      safe_tactics.map Prod.fst :=
  ⟨rfl, rfl, rfl⟩

/-- Claim C6 as amended: no early-termination condition exists in the
executor: a session that is unreachable from tactic k on (every probe
from index k raises) still yields one result per catalog entry — 6 for
the safe catalog — and every tactic from k on is recorded as a failed
result with a non-empty error description, not omitted. -/
theorem C6_amended_no_early_termination (k : Nat) (behavior : Nat → ProbeOutcome)
    (env : Nat → String × Nat × String) (lives : Nat → LiveReads) (durs : Nat → ℚ)
    (hk : ∀ i, k ≤ i → ∃ ty msg, behavior i = ProbeOutcome.exn ty msg) :
    (run_safe_tactics behavior env lives durs).length = 6 ∧
    ∀ i (hi : i < safe_tactics.length), k ≤ i →
      ((run_safe_tactics behavior env lives durs).get
        ⟨i, by rw [run_safe_length]; exact hi⟩).success = false ∧
      ((run_safe_tactics behavior env lives durs).get
        ⟨i, by rw [run_safe_length]; exact hi⟩).details ≠ "" := by
  constructor
  · exact (run_safe_length behavior env lives durs).trans rfl
  · intro i hi hki
    obtain ⟨ty, msg, hb⟩ := hk i hki
    unfold run_safe_tactics
    rw [run_safe_on_get safe_tactics behavior env lives durs i hi, hb]
    exact ⟨rfl, exception_details_ne_empty ty⟩

/-- Witness for C6 as amended: session loss from tactic 2 on still
yields 6 results, and tactic 3 (index 2) is recorded as a failure. -/
theorem C6_amended_witness :
    (∀ i, 1 ≤ i → ∃ ty msg, session_lost_behavior i = ProbeOutcome.exn ty msg) ∧
    (run_safe_tactics session_lost_behavior trivial_safe_env
      (fun _ => dummy_live) (fun _ => 1)).length = 6 ∧
    ((run_safe_tactics session_lost_behavior trivial_safe_env
      (fun _ => dummy_live) (fun _ => 1)).get
        ⟨2, by rw [run_safe_length]; decide⟩).success = false ∧
    ((run_safe_tactics session_lost_behavior trivial_safe_env
      (fun _ => dummy_live) (fun _ => 1)).get
        ⟨2, by rw [run_safe_length]; decide⟩).details ≠ "" := by
  have hk : ∀ i, 1 ≤ i →
      ∃ ty msg, session_lost_behavior i = ProbeOutcome.exn ty msg := by
    intro i hi
    exact ⟨"WebDriverException", "session deleted", by
      simp [session_lost_behavior, Nat.one_le_iff_ne_zero.mp hi]⟩
  have h := C6_amended_no_early_termination 1 session_lost_behavior trivial_safe_env
    (fun _ => dummy_live) (fun _ => 1) hk
  exact ⟨hk, h.1, (h.2 2 (by decide) (by decide)).1, (h.2 2 (by decide) (by decide)).2⟩

/-- Claim C7, counterexample: when only the cookie read fails, the
snapshot is the bare error record: the url and element-count metrics,
whose reads succeeded, are not captured either — refuting that only the
failing metric is omitted. -/
theorem C7_counterexample :
    capture_state_snapshot failing_cookie_reads 5 =
      { timestamp := some (TimeVal.num 5), error := some "detached element" } ∧
    (capture_state_snapshot failing_cookie_reads 5).url = none ∧
    (capture_state_snapshot failing_cookie_reads 5).element_count = none :=
  ⟨rfl, rfl, rfl⟩

/-- Claim C7 as amended: the capture is all-or-nothing: if any metric
read fails, the returned snapshot is exactly the timestamp plus the
capture-error marker (every metric is omitted, including those whose
reads succeeded); when no read fails, all six metrics are present and
no error marker is set. -/
theorem C7_amended_all_or_nothing_capture (s : SessionReads) (now : ℚ) :
    (∀ e, (capture_state_snapshot s now).error = some e →
       capture_state_snapshot s now =
         { timestamp := some (TimeVal.num now), error := some e }) ∧
    ((capture_state_snapshot s now).error = none →
       (capture_state_snapshot s now).url ≠ none ∧
       (capture_state_snapshot s now).title ≠ none ∧
       (capture_state_snapshot s now).element_count ≠ none ∧
       (capture_state_snapshot s now).body_length ≠ none ∧
       (capture_state_snapshot s now).cookies ≠ none ∧
       (capture_state_snapshot s now).local_storage_items ≠ none) := by
  unfold capture_state_snapshot
  cases s.current_url <;> cases s.title <;> cases s.element_count <;>
    cases s.body_length <;> cases s.cookie_count <;> cases s.local_storage_items <;>
    simp [Bind.bind, Except.bind]

/-- Witness for C7 as amended, at the failing cookie read: the error
marker is set and the snapshot collapses to the bare error record. -/
theorem C7_amended_witness :
    ((capture_state_snapshot failing_cookie_reads 5).error = some "detached element") ∧
    capture_state_snapshot failing_cookie_reads 5 =
      { timestamp := some (TimeVal.num 5), error := some "detached element" } :=
  ⟨rfl, (C7_amended_all_or_nothing_capture failing_cookie_reads 5).1 "detached element" rfl⟩

/-- Claim C8, counterexample: the safe list contains
`extract_hidden_data`, which the full catalog assigns to level 4, not to
the lowest-invasiveness level 1 — so the safe run is not restricted to
phase 1 of the full catalog. -/
theorem C8_counterexample :
    ((safe_tactics.map Prod.fst).contains "extract_hidden_data" = true) ∧
    liberation_level "extract_hidden_data" = some 4 ∧
    ¬ ∀ nm ∈ safe_tactics.map Prod.fst, liberation_level nm = some 1 := by
  refine ⟨rfl, rfl, ?_⟩
  decide

/-- Claim C8 as amended: of the six safe tactics, three
(`remove_overlays`, `expand_content`, `disable_lazy_loading`) are
level-1 tactics of the full catalog, while `extract_hidden_data` and
`extract_shadow_dom` are level 4 and `detect_ajax` level 5; the safe
list contains no tactic the full catalog assigns to levels 2, 3 or 6. -/
theorem C8_amended_safe_catalog_levels :
    (safe_tactics.map Prod.fst).map liberation_level =
      [some 1, some 1, some 4, some 5, some 1, some 4] ∧
    ∀ nm ∈ safe_tactics.map Prod.fst,
      liberation_level nm ≠ some 2 ∧ liberation_level nm ≠ some 3 ∧
      liberation_level nm ≠ some 6 := by
  refine ⟨rfl, ?_⟩
  decide

/-- Witness for C8 as amended at the `detect_ajax` entry. -/
theorem C8_amended_witness :
    ("detect_ajax" ∈ safe_tactics.map Prod.fst) ∧
    liberation_level "detect_ajax" ≠ some 2 ∧ liberation_level "detect_ajax" ≠ some 3 ∧
    liberation_level "detect_ajax" ≠ some 6 :=
  ⟨by decide, C8_amended_safe_catalog_levels.2 "detect_ajax" (by decide)⟩

/-- Claim C9: for every mode and executor body, the phase-2 step of
`scout_site` raises `TypeError` — both executors declare a required
positional `report` parameter while `scout_site` supplies zero
arguments — so no tactic-result list is ever produced through this path
and the run cannot proceed past phase 2. -/
theorem C9_scout_site_tactic_call_type_error (safe_mode : Bool)
    (lib_body : Unit → List LibResult) (safe_body : Unit → List SafeResult) :
    scout_site_phase2 safe_mode lib_body safe_body =
      Except.error (PyCallError.typeError "missing 1 required positional argument: report") := by
  cases safe_mode <;> rfl

/-- Claim C10: whenever neither snapshot dict carries a `has_overlays`
key — which holds of every snapshot `_capture_state_snapshot` produces —
`_calculate_impact` appends `unobstructed_view` to `features_unlocked`,
therefore the feature list is non-empty (making the change significant)
and the effectiveness is rated `high`, even for identical snapshots. -/
theorem C10_missing_overlay_key_always_rates_high
    (before after : Snapshot) (s : SessionReads) (now : ℚ)
    (hb : before.has_overlays = none) (ha : after.has_overlays = none) :
    (capture_state_snapshot s now).has_overlays = none ∧
    "unobstructed_view" ∈ (calculate_impact before after).features_unlocked ∧
    (calculate_impact before after).features_unlocked ≠ [] ∧
    (calculate_impact before after).effectiveness = "high" := by
  have hcap : (capture_state_snapshot s now).has_overlays = none := by
    unfold capture_state_snapshot
    cases s.current_url <;> cases s.title <;> cases s.element_count <;>
      cases s.body_length <;> cases s.cookie_count <;> cases s.local_storage_items <;> rfl
  have hmem : "unobstructed_view" ∈ (calculate_impact before after).features_unlocked := by
    show "unobstructed_view" ∈ features_unlocked_calc before after
    simp only [features_unlocked_calc, hb, ha, Option.getD_none]
    simp [List.mem_append]
  have hne : (calculate_impact before after).features_unlocked ≠ [] := by
    intro hnil
    rw [hnil] at hmem
    exact List.not_mem_nil _ hmem
  exact ⟨hcap, hmem, hne, calculate_impact_high_of_features before after hne⟩

/-- Witness for C10 at a pair of identical empty snapshot dicts. -/
theorem C10_witness :
    (({} : Snapshot).has_overlays = none) ∧
    ((capture_state_snapshot all_ok_reads 0).has_overlays = none ∧
     "unobstructed_view" ∈ (calculate_impact {} {}).features_unlocked ∧
     (calculate_impact {} {}).features_unlocked ≠ [] ∧
     (calculate_impact {} {}).effectiveness = "high") :=
  ⟨rfl, C10_missing_overlay_key_always_rates_high {} {} all_ok_reads 0 rfl rfl⟩

end ReconEngine
